import Mathlib

/-!
Portproxy: a shallow embedding of `main.go`.

The Go program keeps one global slice `portMappings` guarded by one global
`mutex`, three HTTP handlers that add, delete and list mappings, and
`startPortForwarding`, which every add request launches as a goroutine.

State is passed explicitly.  Go slices are modelled together with their backing
array, `int` is `Int` with 64-bit wrap-around where the program adds, a panic is
an explicit outcome, and the result of every system call (bind, accept, dial,
copy) is an input chosen by the environment.
-/

namespace PortProxy

/-! ## Data model -/

/-- PortMapping, the struct of `main.go` lines 17-20. -/
structure PortMapping where
  From : Int
  To : String
deriving DecidableEq, Repr

/-- The zero value of `PortMapping`, which fills freshly allocated array cells. -/
def PortMapping.zero : PortMapping := ⟨0, ""⟩

/-- A Go slice seen together with its backing array: `elems` are the `len`
visible elements, `spare` the array cells lying between length and capacity. -/
structure Slice (α : Type) where
  elems : List α
  spare : List α
deriving DecidableEq, Repr

namespace Slice

variable {α : Type}

/-- The nil slice, the initial value of a `var` of slice type. -/
def nil : Slice α := ⟨[], []⟩

/-- Go `len(s)`. -/
def len (s : Slice α) : Nat := s.elems.length

/-- Go `cap(s)`. -/
def cap (s : Slice α) : Nat := s.elems.length + s.spare.length

/-- The backing array from the slice pointer up to the capacity. -/
def array (s : Slice α) : List α := s.elems ++ s.spare

/-- Go `s[:hi]`: in range exactly when `0 <= hi <= cap(s)`; `none` is the
slice-bounds panic. -/
def sliceTo (s : Slice α) (hi : Int) : Option (Slice α) :=
  if 0 ≤ hi ∧ hi ≤ (s.cap : Int) then
    some ⟨s.array.take hi.toNat, s.array.drop hi.toNat⟩
  else none

/-- Go `s[lo:]`, that is `s[lo:len(s)]`: in range exactly when
`0 <= lo <= len(s)`; `none` is the slice-bounds panic. -/
def sliceFrom (s : Slice α) (lo : Int) : Option (Slice α) :=
  if 0 ≤ lo ∧ lo ≤ (s.len : Int) then
    some ⟨s.elems.drop lo.toNat, s.spare⟩
  else none

/-- Go `s[i]`: in range exactly when `0 <= i < len(s)`; `none` is the
index-out-of-range panic. -/
def index (s : Slice α) (i : Int) : Option α :=
  if 0 ≤ i ∧ i < (s.len : Int) then s.elems[i.toNat]? else none

/-- Go `append(s, xs...)`.  When the new elements fit into the capacity they
are written into the backing array in place; otherwise a new array is
allocated, whose number of spare cells `slack oldCap newLen` is the runtime's
choice, and the spare cells hold the zero value. -/
def append (slack : Nat → Nat → Nat) (zero : α) (s : Slice α) (xs : List α) : Slice α :=
  if xs.length ≤ s.spare.length then
    ⟨s.elems ++ xs, s.spare.drop xs.length⟩
  else
    ⟨s.elems ++ xs, List.replicate (slack s.cap (s.len + xs.length)) zero⟩

end Slice

/-! ## Machine integers and `strconv` -/

/-- Two's-complement wrap-around of a 64-bit `int`. -/
def wrapInt (x : Int) : Int := (x + 2 ^ 63) % 2 ^ 64 - 2 ^ 63

/-- The values of Go's 64-bit `int`. -/
def isInt (x : Int) : Prop := -(2 ^ 63) ≤ x ∧ x < 2 ^ 63

instance (x : Int) : Decidable (isInt x) := by unfold isInt; infer_instance

/-- The two errors of `strconv`. -/
inductive NumError where
  | invalid
  | outOfRange
deriving DecidableEq, Repr

/-- The loop of `strconv.ParseUint(s, 10, 64)` over the remaining bytes, `n`
being the value read so far.  A byte that is no decimal digit is a syntax
error with value 0.  A digit met when `n` has reached the cutoff
`maxUint64/10 + 1`, or whose addition passes `maxUint64`, ends the loop at once
with `maxUint64` and a range error: the bytes after it are not read.  (The
bytes of a character outside ASCII are no digits, so the loop is written over
characters.) -/
def parseUintLoop : List Char → Nat → Nat × Option NumError
  | [], n => (n, none)
  | c :: rest, n =>
    if !c.isDigit then (0, some .invalid)
    else if n ≥ (2 ^ 64 - 1) / 10 + 1 then (2 ^ 64 - 1, some .outOfRange)
    else if n * 10 + (c.toNat - 48) > 2 ^ 64 - 1 then (2 ^ 64 - 1, some .outOfRange)
    else parseUintLoop rest (n * 10 + (c.toNat - 48))

/-- Go `strconv.ParseUint(s, 10, 64)`: the empty string is a syntax error. -/
def ParseUint (s : List Char) : Nat × Option NumError :=
  match s with
  | [] => (0, some .invalid)
  | _ :: _ => parseUintLoop s 0

/-- Go `strconv.ParseInt(s, 10, 0)` with a 64-bit `int`: one leading sign is
picked off, then `ParseUint`; a syntax error gives 0, while after a range error
or a value beyond the `int` range the nearest bound is returned with a range
error. -/
def ParseInt (s : List Char) : Int × Option NumError :=
  match s with
  | [] => (0, some .invalid)
  | c :: rest =>
    let neg := c == '-'
    let body := if c == '+' || c == '-' then rest else c :: rest
    match ParseUint body with
    | (_, some .invalid) => (0, some .invalid)
    | (un, _) =>
      if !neg && un ≥ 2 ^ 63 then (2 ^ 63 - 1, some .outOfRange)
      else if neg && un > 2 ^ 63 then (-(2 ^ 63), some .outOfRange)
      else (if neg then -(un : Int) else (un : Int), none)

/-- The digit loop of the fast path of `strconv.Atoi`: `none` is the syntax
error raised at a byte that is no decimal digit. -/
def atoiFastLoop : List Char → Nat → Option Nat
  | [], n => some n
  | c :: rest, n =>
    if !c.isDigit then none else atoiFastLoop rest (n * 10 + (c.toNat - 48))

/-- Go `strconv.Atoi` with a 64-bit `int`.  A string of 1 to 18 bytes takes
the fast path (an optional sign, then digits only); every other string goes
through `ParseInt(s, 10, 0)`.  As in Go a value is returned next to the error. -/
def Atoi (s : String) : Int × Option NumError :=
  if 0 < s.utf8ByteSize ∧ s.utf8ByteSize < 19 then
    match s.data with
    | [] => (0, some .invalid)
    | c :: rest =>
      let body := if c == '-' || c == '+' then rest else c :: rest
      if body.isEmpty then (0, some .invalid)
      else
        match atoiFastLoop body 0 with
        | none => (0, some .invalid)
        | some n => (if c == '-' then -(n : Int) else (n : Int), none)
  else ParseInt s.data

/-- Go `fmt.Sprintf("%d", n)`. -/
def fmtD (n : Int) : String :=
  if n < 0 then "-" ++ Nat.repr n.natAbs else Nat.repr n.toNat

/-! ## Global state: `portMappings` and `mutex` -/

/-- Kind of an access to the variable `portMappings`. -/
inductive AccessKind where
  | read
  | write
deriving DecidableEq, Repr

/-- One access to `portMappings`, with whether the accessing code held `mutex`. -/
structure Access where
  kind : AccessKind
  locked : Bool
deriving DecidableEq, Repr

/-- The package-level variables of `main.go` (lines 22-23).  `mutex` is true
while the mutex is locked; `accesses` is a history of the accesses to
`portMappings`, kept for stating the lock discipline. -/
structure Globals where
  portMappings : Slice PortMapping
  mutex : Bool
  accesses : List Access
deriving DecidableEq, Repr

/-- How a call ended: it returned, it panicked, or it is blocked for ever in
`mutex.Lock()`. -/
inductive Outcome where
  | returned
  | panicked
  | blocked
deriving DecidableEq, Repr

namespace Globals

/-- Process start: nil slice, unlocked mutex. -/
def init : Globals := ⟨Slice.nil, false, []⟩

/-- Go `mutex.Lock()`: `none` when the mutex is already locked. -/
def lock (g : Globals) : Option Globals :=
  if g.mutex then none else some { g with mutex := true }

/-- Go `mutex.Unlock()`. -/
def unlock (g : Globals) : Globals := { g with mutex := false }

/-- A read of the variable `portMappings`. -/
def load (g : Globals) : Slice PortMapping × Globals :=
  (g.portMappings, { g with accesses := g.accesses ++ [⟨.read, g.mutex⟩] })

/-- An assignment to the variable `portMappings`. -/
def store (g : Globals) (s : Slice PortMapping) : Globals :=
  { g with portMappings := s, accesses := g.accesses ++ [⟨.write, g.mutex⟩] }

/-- The mapping table as the program sees it. -/
def table (g : Globals) : List PortMapping := g.portMappings.elems

end Globals

/-! ## The mapping table operations -/

/-- Go `addPortMapping`, lines 26-30. -/
def addPortMapping (slack : Nat → Nat → Nat) (g : Globals) (from_ : Int) (to_ : String) :
    Outcome × Globals :=
  match g.lock with
  | none => (.blocked, g)
  | some g1 =>
    let (s, g2) := g1.load
    let g3 := g2.store (Slice.append slack PortMapping.zero s [⟨from_, to_⟩])
    (.returned, g3.unlock)

/-- Go `deletePortMapping`, lines 33-37.  The two slice expressions are
evaluated left to right; a panic in either leaves the function before the
assignment and before `mutex.Unlock()`. -/
def deletePortMapping (slack : Nat → Nat → Nat) (g : Globals) (index : Int) :
    Outcome × Globals :=
  match g.lock with
  | none => (.blocked, g)
  | some g1 =>
    let (s1, g2) := g1.load
    match s1.sliceTo index with
    | none => (.panicked, g2)
    | some a =>
      let (s2, g3) := g2.load
      match s2.sliceFrom (wrapInt (index + 1)) with
      | none => (.panicked, g3)
      | some b =>
        let g4 := g3.store (Slice.append slack PortMapping.zero a b.elems)
        (.returned, g4.unlock)

/-! ## The listing -/

/-- First write of the `/` handler, lines 83-101 (`Fprintln` adds the newline). -/
def pageHead : String :=
  "<html>\n<head>\n\t<title>Port Forwarding</title>\n</head>\n<body>\n\t<h1>Port Forwarding</h1>\n\t<form action=\"/add\" method=\"post\">\n\t\t<label for=\"from\">From Port:</label>\n\t\t<input type=\"text\" name=\"from\" required>\n\t\t<label for=\"to\">To Address and Port:</label>\n\t\t<input type=\"text\" name=\"to\" required>\n\t\t<input type=\"submit\" value=\"Add Mapping\">\n\t</form>\n\t<table>\n\t\t<tr>\n\t\t\t<th>From Port</th>\n\t\t\t<th>To Address:Port</th>\n\t\t\t<th>Actions</th>\n\t\t</tr>\n"

/-- Last write of the `/` handler, lines 111-113. -/
def pageFoot : String := "</table>\n</body>\n</html>\n"

/-- One table row, the `Fprintf` of lines 104-108 with its three verbs
`%d`, `%s`, `%d` filled by `mapping.From`, `mapping.To`, `index`. -/
def rowHtml (m : PortMapping) (index : Nat) : String :=
  "<tr>\n\t\t\t\t<td>" ++ fmtD m.From ++ "</td>\n\t\t\t\t<td>" ++ m.To
    ++ "</td>\n\t\t\t\t<td><form action=\"/delete/" ++ fmtD index
    ++ "\" method=\"post\"><input type=\"submit\" value=\"Delete\"></form></td>\n\t\t\t</tr>"

/-- The loop `for index, mapping := range portMappings` of lines 103-109,
started at position `index`: one write per element. -/
def rangeRows : List PortMapping → Nat → List String
  | [], _ => []
  | m :: rest, index => rowHtml m index :: rangeRows rest (index + 1)

/-- The `/` handler, lines 82-114: the outcome, the globals afterwards and
the writes made to the response, in order. -/
def listHandler (g : Globals) : Outcome × Globals × List String :=
  match g.lock with
  | none => (.blocked, g, [pageHead])
  | some g1 =>
    let (s, g2) := g1.load
    (.returned, g2.unlock, [pageHead] ++ rangeRows s.elems 0 ++ [pageFoot])

/-! ## The add and delete requests -/

/-- What an HTTP handler did with a request. -/
inductive Reply where
  /-- Go `http.Redirect(w, r, "/", http.StatusSeeOther)` -/
  | seeOther
  /-- Go `http.Error(w, err.Error(), http.StatusBadRequest)` -/
  | badRequest
  /-- the router found no route for the path -/
  | notFound
  /-- the handler panicked; `net/http` recovers the panic and drops the connection -/
  | aborted
  /-- the handler is blocked in `mutex.Lock()` -/
  | hung
deriving DecidableEq, Repr

/-- The destination of lines 124-128: the form value `to`, replaced by
`Sprintf(":%d", port)` when `Atoi` returns no error. -/
def destination (toForm : String) : String :=
  match Atoi toForm with
  | (port, none) => ":" ++ fmtD port
  | (_, some _) => toForm

/-- The `/add` handler, lines 117-135.  The Boolean tells whether
`go startPortForwarding()` was reached. -/
def addHandler (slack : Nat → Nat → Nat) (g : Globals) (fromForm toForm : String) :
    Reply × Bool × Globals :=
  match Atoi fromForm with
  | (_, some _) => (.badRequest, false, g)
  | (from_, none) =>
    match addPortMapping slack g from_ (destination toForm) with
    | (.returned, g1) => (.seeOther, true, g1)
    | (.panicked, g1) => (.aborted, false, g1)
    | (.blocked, g1) => (.hung, false, g1)

/-- The `/delete/` handler, lines 138-149.  The route pattern `[0-9]+` admits
only a non-empty string of decimal digits as `index`. -/
def deleteHandler (slack : Nat → Nat → Nat) (g : Globals) (indexVar : String) :
    Reply × Globals :=
  if indexVar.data.isEmpty || !indexVar.data.all Char.isDigit then (.notFound, g)
  else
    match Atoi indexVar with
    | (_, some _) => (.badRequest, g)
    | (index, none) =>
      match deletePortMapping slack g index with
      | (.returned, g1) => (.seeOther, g1)
      | (.panicked, g1) => (.aborted, g1)
      | (.blocked, g1) => (.hung, g1)

/-! ## The administrative port -/

/-- Go `os.Getenv`: the empty string for a variable that is not set. -/
def Getenv (env : String → Option String) (key : String) : String :=
  (env key).getD ""

/-- Port resolution of `main`, lines 151-160.  `args` is `os.Args`, whose
element 0 is the program name; the error of `Atoi` is discarded, its value
kept. -/
def resolvePort (args : List String) (env : String → Option String) : Int :=
  let port : Int :=
    if args.length > 1 then (Atoi (args.getD 1 "")).1
    else (Atoi (Getenv env "PORT")).1
  if port = 0 then 8080 else port

/-! ## The forwarding engine: starting a listener -/

/-- How `startPortForwarding` left its first part (lines 41-49). -/
inductive StartOutcome where
  /-- an index or slice bound was out of range -/
  | panicked
  /-- the bind failed and the function returned at line 46 -/
  | rolledBack
  /-- the listener exists and the accept loop is entered -/
  | listening
deriving DecidableEq, Repr

/-- Line 41, `mapping := portMappings[len(portMappings)-1]`: `none` is the
index-out-of-range panic.  No lock is taken. -/
def readLast (g : Globals) : Option PortMapping × Globals :=
  let (s1, g1) := g.load
  let (s2, g2) := g1.load
  (s2.index (wrapInt ((s1.len : Int) - 1)), g2)

/-- Lines 42-49 for the mapping read at line 41.  `listenOk` is the result of
`net.Listen`: on failure line 45 cuts the last entry off the table and the
function returns; on success the accept loop follows.  No lock is taken. -/
def listenOrRollback (g : Globals) (listenOk : Bool) : StartOutcome × Globals :=
  if listenOk then (.listening, g)
  else
    let (s1, g1) := g.load
    let (s2, g2) := g1.load
    match s1.sliceTo (wrapInt ((s2.len : Int) - 1)) with
    | none => (.panicked, g2)
    | some s => (.rolledBack, g2.store s)

/-- Go `startPortForwarding`, lines 40-49, run without interruption: the
outcome, the mapping it worked on and the globals afterwards. -/
def startPortForwarding (g : Globals) (listenOk : Bool) :
    StartOutcome × Option PortMapping × Globals :=
  match readLast g with
  | (none, g1) => (.panicked, none, g1)
  | (some m, g1) =>
    let (o, g2) := listenOrRollback g1 listenOk
    (o, some m, g2)

/-! ## Requests and goroutines interleaved -/

/-- Where a `startPortForwarding` goroutine stands. -/
inductive Pc where
  /-- launched, line 41 not yet executed -/
  | launched
  /-- line 41 executed, `mapping` holds the entry read -/
  | holding (mapping : PortMapping)
  /-- the listener for `mapping` exists -/
  | listening (mapping : PortMapping)
  /-- the bind for `mapping` failed and line 45 removed `removed` from the table -/
  | rolledBack (mapping : PortMapping) (removed : PortMapping)
  /-- the goroutine panicked -/
  | panicked
deriving DecidableEq, Repr

/-- One `startPortForwarding` goroutine.  `launchedFor` is the mapping that
the add request appended just before `go startPortForwarding()`. -/
structure Task where
  launchedFor : PortMapping
  pc : Pc
deriving DecidableEq, Repr

/-- The process: the globals, the goroutines launched so far in launch order,
and whether an unrecovered panic of a goroutine has ended the process. -/
structure Sys where
  g : Globals
  tasks : List Task
  crashed : Bool
deriving DecidableEq, Repr

/-- What happens next: an HTTP request is served, or a goroutine takes a step. -/
inductive Event where
  /-- a request to `/add` with form values `from` and `to` -/
  | add (fromForm toForm : String)
  /-- a request to `/delete/` followed by `indexVar` -/
  | delete (indexVar : String)
  /-- goroutine `tid` executes line 41 -/
  | read (tid : Nat)
  /-- goroutine `tid` executes `net.Listen` and lines 43-49; `ok` is the
  result of the bind -/
  | listen (tid : Nat) (ok : Bool)
deriving DecidableEq, Repr

/-- Process start. -/
def Sys.init : Sys := ⟨Globals.init, [], false⟩

/-- One event.  An event that cannot happen in the state (the process has
ended, there is no such goroutine, the goroutine is not at that line) leaves
the state as it is. -/
def step (slack : Nat → Nat → Nat) (σ : Sys) : Event → Sys
  | .add fromForm toForm =>
    if σ.crashed then σ
    else
      match addHandler slack σ.g fromForm toForm with
      | (_, true, g1) =>
        { σ with g := g1,
                 tasks := σ.tasks ++ [⟨⟨(Atoi fromForm).1, destination toForm⟩, .launched⟩] }
      | (_, false, g1) => { σ with g := g1 }
  | .delete indexVar =>
    if σ.crashed then σ
    else { σ with g := (deleteHandler slack σ.g indexVar).2 }
  | .read tid =>
    if σ.crashed then σ
    else
      match σ.tasks.get? tid with
      | some ⟨m0, .launched⟩ =>
        match readLast σ.g with
        | (some m, g1) => { σ with g := g1, tasks := σ.tasks.set tid ⟨m0, .holding m⟩ }
        | (none, g1) => { g := g1, tasks := σ.tasks.set tid ⟨m0, .panicked⟩, crashed := true }
      | _ => σ
  | .listen tid ok =>
    if σ.crashed then σ
    else
      match σ.tasks.get? tid with
      | some ⟨m0, .holding m⟩ =>
        match listenOrRollback σ.g ok with
        | (.listening, g1) => { σ with g := g1, tasks := σ.tasks.set tid ⟨m0, .listening m⟩ }
        | (.rolledBack, g1) =>
          { σ with g := g1,
                   tasks := σ.tasks.set tid
                     ⟨m0, .rolledBack m (σ.g.table.getLast?.getD PortMapping.zero)⟩ }
        | (.panicked, g1) =>
          { g := g1, tasks := σ.tasks.set tid ⟨m0, .panicked⟩, crashed := true }
      | _ => σ

/-- A sequence of events from a state. -/
def run (slack : Nat → Nat → Nat) (σ : Sys) (es : List Event) : Sys :=
  es.foldl (step slack) σ

/-! ## The forwarding engine: accept loop and relay -/

/-- The sockets of the process: the descriptors that are open, and the next
descriptor the system hands out. -/
structure Net where
  openSocks : List Nat
  next : Nat
deriving DecidableEq, Repr

/-- A new open socket (the result of `Accept` or `Dial`). -/
def Net.openSock (n : Net) : Nat × Net :=
  (n.next, ⟨n.next :: n.openSocks, n.next + 1⟩)

/-- Go `conn.Close()`. -/
def Net.close (n : Net) (fd : Nat) : Net :=
  { n with openSocks := n.openSocks.filter (fun x => x != fd) }

/-- The process as the accept loop and the relays see it. -/
structure World where
  g : Globals
  net : Net
  exited : Bool
deriving DecidableEq, Repr

/-- Deferred `Close` calls run at function exit, last deferred first. -/
def runDefers : List Nat → World → World
  | [], w => w
  | fd :: rest, w => runDefers rest { w with net := w.net.close fd }

/-- What the environment does to one relay: whether `net.Dial` succeeds,
whether `io.Copy(server, client)` (client to destination, in its own
goroutine) has returned, and whether `io.Copy(client, server)` returns. -/
structure RelayEnv where
  dialOk : Bool
  upDone : Bool
  downDone : Bool
deriving DecidableEq, Repr

/-- How far a relay goroutine got. -/
inductive RelayEnd where
  /-- the function returned and its deferred calls ran -/
  | returned
  /-- the goroutine is inside `io.Copy(client, server)` -/
  | copying
deriving DecidableEq, Repr

/-- The relay goroutine of lines 59-74 for the accepted socket `client`: how
far it got, the destination socket if the dial succeeded, and the world
afterwards.  The list `defers` is the stack of deferred `Close` calls. -/
def relay (env : RelayEnv) (client : Nat) (w : World) : RelayEnd × Option Nat × World :=
  let defers := [client]
  if env.dialOk then
    let (server, net1) := w.net.openSock
    let w1 := { w with net := net1 }
    let defers := server :: defers
    if env.downDone then (.returned, some server, runDefers defers w1)
    else (.copying, some server, w1)
  else (.returned, none, runDefers defers w)

/-- One result of `listener.Accept()`: a connection, with what the
environment does to its relay, or an error. -/
inductive AcceptResult where
  | conn (env : RelayEnv)
  | err
deriving DecidableEq, Repr

/-- The accept loop of lines 51-75 over the results of successive `Accept`
calls.  An error reaches `log.Fatal`, which ends the process; a connection
starts a relay and the loop goes on.  When the results are used up the loop is
waiting in `Accept`. -/
def acceptLoop : List AcceptResult → World → World
  | [], w => w
  | .err :: _, w => { w with exited := true }
  | .conn env :: rest, w =>
    let (client, net1) := w.net.openSock
    acceptLoop rest (relay env client { w with net := net1 }).2.2

/-! ## Auxiliary notions used in the statements -/

/-- Successive calls of `addPortMapping`, one per element of `ms`, in order. -/
def addAll (slack : Nat → Nat → Nat) (g : Globals) (ms : List PortMapping) : Globals :=
  ms.foldl (fun g m => (addPortMapping slack g m.From m.To).2) g

/-- Every recorded access to `portMappings` was made with `mutex` held. -/
def allLocked (as : List Access) : Bool := as.all (fun a => a.locked)

/-- The administrative port as the specification words it: the integer value
of the first startup argument if one is given, otherwise the integer value of
`PORT` if it is set, otherwise 8080.  The integer value of a text is what
`Atoi` returns for it. -/
def specPort (args : List String) (env : String → Option String) : Int :=
  if args.length > 1 then (Atoi (args.getD 1 "")).1
  else
    match env "PORT" with
    | some v => (Atoi v).1
    | none => 8080

/-- A runtime that allocates no spare capacity when a slice grows. -/
def noSlack : Nat → Nat → Nat := fun _ _ => 0

/-- A runtime that allocates as many spare cells as the new length when a
slice grows, so that the capacity is twice the length. -/
def doubling : Nat → Nat → Nat := fun _ newLen => newLen

/-! ## Slices and machine integers -/

theorem Slice.append_elems {α : Type} (slack : Nat → Nat → Nat) (zero : α) (s : Slice α)
    (xs : List α) : (Slice.append slack zero s xs).elems = s.elems ++ xs := by
  unfold Slice.append
  split <;> rfl

theorem wrapInt_of_isInt (x : Int) (h : isInt x) : wrapInt x = x := by
  unfold isInt at h
  unfold wrapInt
  omega

theorem wrapInt_succ (x : Int) (h : isInt x) :
    wrapInt (x + 1) = x + 1 ∨ wrapInt (x + 1) < 0 := by
  unfold isInt at h
  unfold wrapInt
  omega

theorem Slice.sliceTo_le {α : Type} (s : Slice α) (i : Nat) (h : i ≤ s.elems.length) :
    s.sliceTo (i : Int) = some ⟨s.elems.take i, s.elems.drop i ++ s.spare⟩ := by
  unfold Slice.sliceTo Slice.cap Slice.array
  have h1 : (0 : Int) ≤ (i : Int) ∧
      (i : Int) ≤ ((s.elems.length + s.spare.length : Nat) : Int) := by
    omega
  rw [if_pos h1]
  simp [List.take_append_of_le_length h, List.drop_append_of_le_length h]

theorem Slice.sliceFrom_le {α : Type} (s : Slice α) (i : Nat) (h : i ≤ s.elems.length) :
    s.sliceFrom (i : Int) = some ⟨s.elems.drop i, s.spare⟩ := by
  unfold Slice.sliceFrom Slice.len
  have h1 : (0 : Int) ≤ (i : Int) ∧ (i : Int) ≤ ((s.elems.length : Nat) : Int) := by
    omega
  rw [if_pos h1]
  simp

theorem Slice.sliceTo_neg {α : Type} (s : Slice α) (i : Int) (h : i < 0) :
    s.sliceTo i = none := by
  unfold Slice.sliceTo
  rw [if_neg (by omega)]

theorem Slice.sliceFrom_out {α : Type} (s : Slice α) (i : Int)
    (h : i < 0 ∨ (s.elems.length : Int) < i) : s.sliceFrom i = none := by
  unfold Slice.sliceFrom Slice.len
  rw [if_neg (by omega)]

/-! ## Normal forms of the table operations -/

theorem Globals.lock_unlocked (g : Globals) (h : g.mutex = false) :
    g.lock = some { g with mutex := true } := by
  simp [Globals.lock, h]

theorem Globals.lock_locked (g : Globals) (h : g.mutex = true) : g.lock = none := by
  simp [Globals.lock, h]

theorem addPortMapping_unlocked (slack : Nat → Nat → Nat) (g : Globals) (from_ : Int)
    (to_ : String) (h : g.mutex = false) :
    addPortMapping slack g from_ to_ =
      (.returned,
        ⟨Slice.append slack PortMapping.zero g.portMappings [⟨from_, to_⟩], false,
          g.accesses ++ [⟨.read, true⟩] ++ [⟨.write, true⟩]⟩) := by
  unfold addPortMapping
  rw [Globals.lock_unlocked g h]
  rfl

theorem addPortMapping_locked (slack : Nat → Nat → Nat) (g : Globals) (from_ : Int)
    (to_ : String) (h : g.mutex = true) :
    addPortMapping slack g from_ to_ = (.blocked, g) := by
  unfold addPortMapping
  rw [Globals.lock_locked g h]

theorem deletePortMapping_unlocked (slack : Nat → Nat → Nat) (g : Globals) (index : Int)
    (h : g.mutex = false) :
    deletePortMapping slack g index =
      match g.portMappings.sliceTo index with
      | none => (.panicked, ⟨g.portMappings, true, g.accesses ++ [⟨.read, true⟩]⟩)
      | some a =>
        match g.portMappings.sliceFrom (wrapInt (index + 1)) with
        | none =>
          (.panicked,
            ⟨g.portMappings, true, g.accesses ++ [⟨.read, true⟩] ++ [⟨.read, true⟩]⟩)
        | some b =>
          (.returned, ⟨Slice.append slack PortMapping.zero a b.elems, false,
            g.accesses ++ [⟨.read, true⟩] ++ [⟨.read, true⟩] ++ [⟨.write, true⟩]⟩) := by
  unfold deletePortMapping
  rw [Globals.lock_unlocked g h]
  rfl

theorem listHandler_unlocked (g : Globals) (h : g.mutex = false) :
    listHandler g =
      (.returned, ⟨g.portMappings, false, g.accesses ++ [⟨.read, true⟩]⟩,
        [pageHead] ++ rangeRows g.portMappings.elems 0 ++ [pageFoot]) := by
  unfold listHandler
  rw [Globals.lock_unlocked g h]
  rfl

theorem listHandler_locked (g : Globals) (h : g.mutex = true) :
    listHandler g = (.blocked, g, [pageHead]) := by
  unfold listHandler
  rw [Globals.lock_locked g h]

theorem deletePortMapping_inRange (slack : Nat → Nat → Nat) (g : Globals) (i : Nat)
    (hfree : g.mutex = false) (hi : i < g.table.length)
    (hlen : (g.table.length : Int) < 2 ^ 63) :
    deletePortMapping slack g (i : Int) =
      (.returned,
        ⟨⟨g.table.eraseIdx i, g.table.drop (g.table.length - 1) ++ g.portMappings.spare⟩,
          false, g.accesses ++ [⟨.read, true⟩] ++ [⟨.read, true⟩] ++ [⟨.write, true⟩]⟩) := by
  have hw : wrapInt ((i : Int) + 1) = ((i + 1 : Nat) : Int) := by
    rw [wrapInt_of_isInt]
    · push_cast; rfl
    · unfold isInt; omega
  unfold Globals.table at hi hlen ⊢
  rw [deletePortMapping_unlocked slack g _ hfree, Slice.sliceTo_le _ _ (le_of_lt hi), hw,
    Slice.sliceFrom_le _ _ hi]
  show (Outcome.returned, _) = _
  have h5 : (List.drop (i + 1) g.portMappings.elems).length
      ≤ (List.drop i g.portMappings.elems ++ g.portMappings.spare).length := by
    simp only [List.length_drop, List.length_append]; omega
  unfold Slice.append
  rw [if_pos h5]
  have h6 : List.drop (List.drop (i + 1) g.portMappings.elems).length
      (List.drop i g.portMappings.elems ++ g.portMappings.spare)
      = List.drop (g.portMappings.elems.length - 1) g.portMappings.elems
          ++ g.portMappings.spare := by
    rw [List.drop_append_of_le_length (by simp only [List.length_drop]; omega)]
    rw [List.drop_drop, List.length_drop]
    have e : i + (g.portMappings.elems.length - (i + 1))
        = g.portMappings.elems.length - 1 := by
      omega
    rw [e]
  dsimp only
  rw [h6, List.eraseIdx_eq_take_drop_succ]

theorem deletePortMapping_outOfRange (slack : Nat → Nat → Nat) (g : Globals) (index : Int)
    (hfree : g.mutex = false) (hint : isInt index)
    (hout : index < 0 ∨ (g.table.length : Int) ≤ index) :
    (deletePortMapping slack g index).1 = .panicked ∧
      (deletePortMapping slack g index).2.portMappings = g.portMappings ∧
      (deletePortMapping slack g index).2.mutex = true := by
  rw [deletePortMapping_unlocked slack g _ hfree]
  cases h1 : g.portMappings.sliceTo index with
  | none => exact ⟨rfl, rfl, rfl⟩
  | some a =>
    have h0 : 0 ≤ index := by
      by_contra hneg
      rw [Slice.sliceTo_neg _ _ (by omega)] at h1
      exact Option.noConfusion h1
    have h2 : g.portMappings.sliceFrom (wrapInt (index + 1)) = none := by
      apply Slice.sliceFrom_out
      unfold Globals.table at hout
      rcases wrapInt_succ index hint with h | h
      · right; rw [h]; omega
      · left; exact h
    rw [h2]
    exact ⟨rfl, rfl, rfl⟩

theorem rangeRows_length (l : List PortMapping) (n : Nat) :
    (rangeRows l n).length = l.length := by
  induction l generalizing n with
  | nil => rfl
  | cons m rest ih => simp [rangeRows, ih]

theorem rangeRows_getElem? (l : List PortMapping) (n k : Nat) (m : PortMapping)
    (h : l[k]? = some m) : (rangeRows l n)[k]? = some (rowHtml m (n + k)) := by
  induction l generalizing n k with
  | nil => simp at h
  | cons m0 rest ih =>
    cases k with
    | zero =>
      simp at h
      simp [rangeRows, h]
    | succ k =>
      simp at h
      simp only [rangeRows, List.getElem?_cons_succ]
      rw [ih (n + 1) k h]
      congr 2
      omega

theorem addAll_unlocked (slack : Nat → Nat → Nat) (g : Globals) (ms : List PortMapping)
    (h : g.mutex = false) :
    (addAll slack g ms).mutex = false ∧ (addAll slack g ms).table = g.table ++ ms := by
  induction ms generalizing g with
  | nil => simp [addAll, h]
  | cons m rest ih =>
    have hstep : addAll slack g (m :: rest)
        = addAll slack (addPortMapping slack g m.From m.To).2 rest := rfl
    rw [hstep, addPortMapping_unlocked slack g _ _ h]
    have := ih ⟨Slice.append slack PortMapping.zero g.portMappings [⟨m.From, m.To⟩], false,
          g.accesses ++ [⟨.read, true⟩] ++ [⟨.write, true⟩]⟩ rfl
    refine ⟨this.1, ?_⟩
    rw [this.2]
    simp [Globals.table, Slice.append_elems]

/-! ## Delete -/

/-- C2: from a table of length N with the lock free, `deletePortMapping(i)` for
`0 <= i < N` returns and leaves a table of length N-1 whose entry at every
position `j < i` is the old entry at `j` and whose entry at every position `j`
with `i <= j < N-1` is the old entry at `j+1`; that is, the old table with
exactly the element at position `i` removed. -/
theorem deletePortMapping_shifts_left (slack : Nat → Nat → Nat) (g : Globals) (i : Nat)
    (hfree : g.mutex = false) (hi : i < g.table.length)
    (hlen : (g.table.length : Int) < 2 ^ 63) :
    (deletePortMapping slack g (i : Int)).1 = .returned ∧
      (deletePortMapping slack g (i : Int)).2.table.length = g.table.length - 1 ∧
      (∀ j, j < i → (deletePortMapping slack g (i : Int)).2.table[j]? = g.table[j]?) ∧
      (∀ j, i ≤ j → j < g.table.length - 1 →
        (deletePortMapping slack g (i : Int)).2.table[j]? = g.table[j + 1]?) ∧
      (deletePortMapping slack g (i : Int)).2.table = g.table.eraseIdx i := by
  rw [deletePortMapping_inRange slack g i hfree hi hlen]
  refine ⟨rfl, ?_, ?_, ?_, rfl⟩
  · show (g.table.eraseIdx i).length = _
    rw [List.length_eraseIdx]
    simp [hi]
  · intro j hj
    show (g.table.eraseIdx i)[j]? = _
    rw [List.getElem?_eraseIdx]
    simp [hj]
  · intro j hj _
    show (g.table.eraseIdx i)[j]? = _
    rw [List.getElem?_eraseIdx]
    simp [Nat.not_lt.mpr hj]

/-- C2 at a concrete table: deleting index 1 of a three-entry table. -/
theorem deletePortMapping_shifts_left_witness :
    (deletePortMapping noSlack ⟨⟨[⟨80, ":1"⟩, ⟨81, ":2"⟩, ⟨82, ":3"⟩], []⟩, false, []⟩
        ((1 : Nat) : Int)).2.table = [⟨80, ":1"⟩, ⟨82, ":3"⟩] :=
  (deletePortMapping_shifts_left noSlack
    ⟨⟨[⟨80, ":1"⟩, ⟨81, ":2"⟩, ⟨82, ":3"⟩], []⟩, false, []⟩ 1 rfl (by decide)
    (by decide)).2.2.2.2

/-- C3: with the lock free, `deletePortMapping(index)` for an `int` index below
0 or at least the table length, also one between the length and the capacity,
panics, and the slice variable afterwards is what it was, backing array
included: same elements, same length. -/
theorem deletePortMapping_out_of_range_panics (slack : Nat → Nat → Nat) (g : Globals)
    (index : Int) (hfree : g.mutex = false) (hint : isInt index)
    (hout : index < 0 ∨ (g.table.length : Int) ≤ index) :
    (deletePortMapping slack g index).1 = .panicked ∧
      (deletePortMapping slack g index).2.portMappings = g.portMappings ∧
      (deletePortMapping slack g index).2.table = g.table ∧
      (deletePortMapping slack g index).2.table.length = g.table.length := by
  have h := deletePortMapping_outOfRange slack g index hfree hint hout
  refine ⟨h.1, h.2.1, ?_, ?_⟩
  · unfold Globals.table; rw [h.2.1]
  · unfold Globals.table; rw [h.2.1]

/-- C3 at a concrete table: length 1, capacity 2 after an earlier deletion,
index 1. -/
theorem deletePortMapping_out_of_range_panics_witness :
    (deletePortMapping noSlack ⟨⟨[⟨80, ":1"⟩], [⟨81, ":2"⟩]⟩, false, []⟩ 1).1 = .panicked ∧
      (deletePortMapping noSlack ⟨⟨[⟨80, ":1"⟩], [⟨81, ":2"⟩]⟩, false, []⟩ 1).2.table
        = [⟨80, ":1"⟩] :=
  have h := deletePortMapping_out_of_range_panics noSlack
    ⟨⟨[⟨80, ":1"⟩], [⟨81, ":2"⟩]⟩, false, []⟩ 1 rfl (by decide) (by decide)
  ⟨h.1, h.2.2.1⟩

/-! ## Add and the listing -/

/-- C4: with the lock free, `addPortMapping(from, to)` returns and leaves the
old table with the one entry `(from, to)` appended at position `len`, every
earlier entry unchanged; and after adding the mappings `ms` to the empty table
the listing writes, between the page head and the page foot, exactly one row
per mapping, in insertion order, row `k` being the table row whose first cell
is the decimal listen port of the `k`-th mapping, whose second cell is its
destination and whose form posts to `/delete/` followed by the decimal `k`. -/
theorem addPortMapping_appends_and_listing_in_order (slack : Nat → Nat → Nat) :
    (∀ (g : Globals) (from_ : Int) (to_ : String), g.mutex = false →
      (addPortMapping slack g from_ to_).1 = .returned ∧
      (addPortMapping slack g from_ to_).2.table = g.table ++ [⟨from_, to_⟩] ∧
      (addPortMapping slack g from_ to_).2.table[g.table.length]? = some ⟨from_, to_⟩ ∧
      (∀ j, j < g.table.length →
        (addPortMapping slack g from_ to_).2.table[j]? = g.table[j]?)) ∧
    (∀ ms : List PortMapping,
      (addAll slack Globals.init ms).table = ms ∧
      (listHandler (addAll slack Globals.init ms)).1 = .returned ∧
      ∃ rows : List String,
        (listHandler (addAll slack Globals.init ms)).2.2 = [pageHead] ++ rows ++ [pageFoot] ∧
        rows.length = ms.length ∧
        ∀ (k : Nat) (m : PortMapping), ms[k]? = some m →
          rows[k]? = some
            ("<tr>\n\t\t\t\t<td>" ++ fmtD m.From ++ "</td>\n\t\t\t\t<td>" ++ m.To
              ++ "</td>\n\t\t\t\t<td><form action=\"/delete/" ++ fmtD (k : Int)
              ++ "\" method=\"post\"><input type=\"submit\" value=\"Delete\"></form></td>\n\t\t\t</tr>")) := by
  constructor
  · intro g from_ to_ hfree
    rw [addPortMapping_unlocked slack g from_ to_ hfree]
    have ht : (Slice.append slack PortMapping.zero g.portMappings [⟨from_, to_⟩]).elems
        = g.table ++ [⟨from_, to_⟩] := Slice.append_elems _ _ _ _
    refine ⟨rfl, ht, ?_, ?_⟩
    · show (Slice.append slack PortMapping.zero g.portMappings [⟨from_, to_⟩]).elems[_]? = _
      rw [ht]
      simp
    · intro j hj
      show (Slice.append slack PortMapping.zero g.portMappings [⟨from_, to_⟩]).elems[_]? = _
      rw [ht, List.getElem?_append_left hj]
  · intro ms
    have h := addAll_unlocked slack Globals.init ms rfl
    have ht : (addAll slack Globals.init ms).table = ms := by
      rw [h.2]; rfl
    rw [listHandler_unlocked _ h.1]
    refine ⟨ht, rfl, rangeRows (addAll slack Globals.init ms).portMappings.elems 0, rfl, ?_, ?_⟩
    · rw [rangeRows_length]
      exact congrArg List.length ht
    · intro k m hk
      have hk2 : (addAll slack Globals.init ms).portMappings.elems[k]? = some m := by
        have : (addAll slack Globals.init ms).portMappings.elems = ms := ht
        rw [this]; exact hk
      have h3 := rangeRows_getElem? _ 0 k m hk2
      rw [Nat.zero_add] at h3
      exact h3

/-- C4 at a concrete input: two mappings added to the empty table, then
listed; the two rows are written out in full. -/
theorem addPortMapping_appends_and_listing_in_order_witness :
    (addAll doubling Globals.init [⟨80, "a:1"⟩, ⟨81, ":2"⟩]).table
        = [⟨80, "a:1"⟩, ⟨81, ":2"⟩] ∧
      (listHandler (addAll doubling Globals.init [⟨80, "a:1"⟩, ⟨81, ":2"⟩])).2.2
        = [pageHead,
            "<tr>\n\t\t\t\t<td>80</td>\n\t\t\t\t<td>a:1</td>\n\t\t\t\t<td><form action=\"/delete/0\" method=\"post\"><input type=\"submit\" value=\"Delete\"></form></td>\n\t\t\t</tr>",
            "<tr>\n\t\t\t\t<td>81</td>\n\t\t\t\t<td>:2</td>\n\t\t\t\t<td><form action=\"/delete/1\" method=\"post\"><input type=\"submit\" value=\"Delete\"></form></td>\n\t\t\t</tr>",
            pageFoot] :=
  ⟨((addPortMapping_appends_and_listing_in_order doubling).2 [⟨80, "a:1"⟩, ⟨81, ":2"⟩]).1,
    rfl⟩

/-! ## The lock after a failed delete -/

/-- C10, the code at a failing input: on the empty table with the lock free
`deletePortMapping(0)` panics with the mutex still locked, and the next
`addPortMapping`, `deletePortMapping` and listing are each blocked in
`mutex.Lock()`. -/
theorem deletePortMapping_panic_keeps_mutex_locked (slack : Nat → Nat → Nat) :
    (deletePortMapping slack Globals.init 0).1 = .panicked ∧
      (deletePortMapping slack Globals.init 0).2.mutex = true ∧
      (addPortMapping slack (deletePortMapping slack Globals.init 0).2 80 ":81").1
        = .blocked ∧
      (deletePortMapping slack (deletePortMapping slack Globals.init 0).2 0).1 = .blocked ∧
      (listHandler (deletePortMapping slack Globals.init 0).2).1 = .blocked :=
  ⟨rfl, rfl, rfl, rfl, rfl⟩

/-! ## The add request -/

theorem destination_of_int (s : String) (p : Int) (h : Atoi s = (p, none)) :
    destination s = ":" ++ fmtD p := by
  unfold destination
  rw [h]

theorem destination_of_error (s : String) (p : Int) (e : NumError)
    (h : Atoi s = (p, some e)) : destination s = s := by
  unfold destination
  rw [h]

theorem addHandler_ok (slack : Nat → Nat → Nat) (g : Globals) (fromForm toForm : String)
    (hfree : g.mutex = false) (hfrom : (Atoi fromForm).2 = none) :
    addHandler slack g fromForm toForm =
      (.seeOther, true,
        ⟨Slice.append slack PortMapping.zero g.portMappings
            [⟨(Atoi fromForm).1, destination toForm⟩], false,
          g.accesses ++ [⟨.read, true⟩] ++ [⟨.write, true⟩]⟩) := by
  rcases hA : Atoi fromForm with ⟨v, e⟩
  rw [hA] at hfrom
  cases hfrom
  unfold addHandler
  rw [hA]
  show (match addPortMapping slack g v (destination toForm) with
    | (.returned, g1) => (Reply.seeOther, true, g1)
    | (.panicked, g1) => (Reply.aborted, false, g1)
    | (.blocked, g1) => (Reply.hung, false, g1)) = _
  rw [addPortMapping_unlocked slack g _ _ hfree]

/-- C5: when the add request is accepted (the form value `from` is an integer,
the lock is free), the mapping it appends holds as destination `":"` followed
by the decimal rendering of `p` if the form value `to` parses as the integer
`p`, and the form value `to` itself, unchanged, if it does not parse. -/
theorem add_request_normalises_destination (slack : Nat → Nat → Nat) (g : Globals)
    (fromForm s : String) (hfree : g.mutex = false) (hfrom : (Atoi fromForm).2 = none) :
    (addHandler slack g fromForm s).1 = .seeOther ∧
      (∀ p : Int, Atoi s = (p, none) →
        (addHandler slack g fromForm s).2.2.table
          = g.table ++ [⟨(Atoi fromForm).1, ":" ++ fmtD p⟩]) ∧
      (∀ (p : Int) (e : NumError), Atoi s = (p, some e) →
        (addHandler slack g fromForm s).2.2.table
          = g.table ++ [⟨(Atoi fromForm).1, s⟩]) := by
  rw [addHandler_ok slack g fromForm s hfree hfrom]
  refine ⟨rfl, ?_, ?_⟩
  · intro p hp
    show (Slice.append slack PortMapping.zero g.portMappings _).elems = _
    rw [Slice.append_elems, destination_of_int s p hp]
    rfl
  · intro p e hp
    show (Slice.append slack PortMapping.zero g.portMappings _).elems = _
    rw [Slice.append_elems, destination_of_error s p e hp]
    rfl

/-- C5 at concrete inputs: a bare port and a host:port destination. -/
theorem add_request_normalises_destination_witness :
    (addHandler noSlack Globals.init "8080" "3000").2.2.table = [⟨8080, ":3000"⟩] ∧
      (addHandler noSlack Globals.init "8080" "db:3000").2.2.table = [⟨8080, "db:3000"⟩] :=
  ⟨(add_request_normalises_destination noSlack Globals.init "8080" "3000" rfl rfl).2.1
      3000 rfl,
    (add_request_normalises_destination noSlack Globals.init "8080" "db:3000" rfl rfl).2.2
      0 .invalid rfl⟩

/-! ## The administrative port -/

/-- C6 as stated fails: with the startup argument `0` the integer value of the
argument is 0, yet the resolved port is 8080. -/
theorem resolvePort_differs_from_specPort :
    Atoi "0" = (0, none) ∧
      specPort ["portproxy", "0"] (fun _ => none) = 0 ∧
      resolvePort ["portproxy", "0"] (fun _ => none) = 8080 := by
  decide

/-- C6 amended: the resolved port is the integer value of the first startup
argument if one is given, otherwise that of `PORT` if it is set, otherwise
8080, except that an integer value of 0 is replaced by 8080; the integer value
of a text is the value `Atoi` returns, its error being dropped; and once an
argument is given the environment plays no part. -/
theorem resolvePort_eq_specPort_unless_zero (args : List String)
    (env : String → Option String) :
    resolvePort args env
        = (if specPort args env = 0 then 8080 else specPort args env) ∧
      (∀ env2 : String → Option String, args.length > 1 →
        resolvePort args env = resolvePort args env2) := by
  constructor
  · unfold resolvePort specPort Getenv
    by_cases h : args.length > 1
    · simp only [h, if_true]
    · simp only [h, if_false]
      cases env "PORT" with
      | none =>
        have : Atoi "" = (0, some .invalid) := rfl
        simp [this]
      | some v => simp
  · intro env2 h
    unfold resolvePort
    simp only [h, if_true]

/-- C6 amended, at concrete inputs: an argument that is a port, one that is no
integer, one whose digits overflow before a letter is met, and no argument
with `PORT` set, unset, and set but shadowed by an argument. -/
theorem resolvePort_eq_specPort_unless_zero_witness :
    resolvePort ["portproxy", "9000"] (fun _ => none) = 9000 ∧
      resolvePort ["portproxy", "abc"] (fun k => if k = "PORT" then some "7000" else none)
        = 8080 ∧
      resolvePort ["portproxy", "99999999999999999999x"] (fun _ => none)
        = 9223372036854775807 ∧
      resolvePort ["portproxy"] (fun k => if k = "PORT" then some "7000" else none) = 7000 ∧
      resolvePort ["portproxy"] (fun _ => none) = 8080 ∧
      resolvePort ["portproxy", "9000"] (fun k => if k = "PORT" then some "7000" else none)
        = 9000 :=
  ⟨by decide, by decide, by decide, by decide, by decide,
    ((resolvePort_eq_specPort_unless_zero ["portproxy", "9000"]
      (fun k => if k = "PORT" then some "7000" else none)).2 (fun _ => none)
      (by decide)).trans (by decide)⟩

/-! ## The relay -/

theorem Net.not_mem_close (n : Net) (fd : Nat) : fd ∉ (n.close fd).openSocks := by
  simp [Net.close]

theorem Net.not_mem_close_of_not_mem (n : Net) (fd x : Nat) (h : x ∉ n.openSocks) :
    x ∉ (n.close fd).openSocks := by
  simp only [Net.close, List.mem_filter, not_and]
  intro hx
  exact absurd hx h

theorem relay_dial_failed (up down : Bool) (client : Nat) (w : World) :
    relay ⟨false, up, down⟩ client w
      = (.returned, none, { w with net := w.net.close client }) := rfl

theorem relay_copy_returned (up : Bool) (client : Nat) (w : World) :
    relay ⟨true, up, true⟩ client w
      = (.returned, some w.net.next,
          { w with net := (w.net.openSock.2.close w.net.next).close client }) := rfl

theorem relay_copy_pending (up : Bool) (client : Nat) (w : World) :
    relay ⟨true, up, false⟩ client w
      = (.copying, some w.net.next, { w with net := w.net.openSock.2 }) := rfl

/-- C7: the relay goroutine returns exactly when the dial failed or
`io.Copy(client, server)` returned, whether or not the other copy has ended;
whenever it returns the client socket is closed and so is the destination
socket if the dial produced one; it never changes the mapping table or ends
the process; and when the dial fails it returns with the client socket closed,
no destination socket and no other socket touched, and the accept loop goes
on: after that one connection the loop is waiting in `Accept` with the process
alive as before, the table unchanged and the accepted socket closed, and a
connection that arrives next is accepted and dialed, its two sockets being the
next two descriptors. -/
theorem relay_closes_its_sockets (env : RelayEnv) (client : Nat) (w : World) :
    ((relay env client w).1 = .returned ↔ (env.dialOk = false ∨ env.downDone = true)) ∧
      ((relay env client w).1 = .returned →
        client ∉ (relay env client w).2.2.net.openSocks ∧
        ∀ server, (relay env client w).2.1 = some server →
          server ∉ (relay env client w).2.2.net.openSocks) ∧
      ((relay env client w).2.1.isSome = env.dialOk) ∧
      (relay env client w).2.2.g = w.g ∧
      (relay env client w).2.2.exited = w.exited ∧
      (env.dialOk = false →
        (relay env client w).1 = .returned ∧
        (relay env client w).2.1 = none ∧
        (relay env client w).2.2.net.openSocks
          = w.net.openSocks.filter (fun x => x != client) ∧
        (∀ rest : List AcceptResult,
          acceptLoop (.conn env :: rest) w
            = acceptLoop rest
                ⟨w.g, ⟨w.net.openSocks.filter (fun x => x != w.net.next), w.net.next + 1⟩,
                  w.exited⟩) ∧
        acceptLoop [.conn env] w
          = ⟨w.g, ⟨w.net.openSocks.filter (fun x => x != w.net.next), w.net.next + 1⟩,
              w.exited⟩ ∧
        (∀ up : Bool, acceptLoop [.conn env, .conn ⟨true, up, false⟩] w
          = ⟨w.g,
              ⟨(w.net.next + 2) :: (w.net.next + 1)
                  :: w.net.openSocks.filter (fun x => x != w.net.next),
                w.net.next + 3⟩,
              w.exited⟩) ∧
        acceptLoop [.conn env, .err] w
          = ⟨w.g, ⟨w.net.openSocks.filter (fun x => x != w.net.next), w.net.next + 1⟩,
              true⟩) := by
  obtain ⟨dialOk, upDone, downDone⟩ := env
  cases dialOk with
  | false =>
    rw [relay_dial_failed]
    refine ⟨by simp, ?_, rfl, rfl, rfl, ?_⟩
    · intro _
      exact ⟨Net.not_mem_close _ _, fun server h => Option.noConfusion h⟩
    · intro _
      have hstep : ∀ rest : List AcceptResult,
          acceptLoop (.conn ⟨false, upDone, downDone⟩ :: rest) w
            = acceptLoop rest
                ⟨w.g, ⟨w.net.openSocks.filter (fun x => x != w.net.next), w.net.next + 1⟩,
                  w.exited⟩ := by
        intro rest
        show acceptLoop rest
            (relay ⟨false, upDone, downDone⟩ w.net.next
              { w with net := w.net.openSock.2 }).2.2 = _
        rw [relay_dial_failed]
        simp [Net.close, Net.openSock]
      refine ⟨rfl, rfl, rfl, hstep, ?_, ?_, ?_⟩
      · rw [hstep]; rfl
      · intro up
        rw [hstep]; rfl
      · rw [hstep]; rfl
  | true =>
    cases downDone with
    | true =>
      rw [relay_copy_returned]
      refine ⟨by simp, ?_, rfl, rfl, rfl, by simp⟩
      intro _
      refine ⟨Net.not_mem_close _ _, ?_⟩
      intro server h
      cases h
      exact Net.not_mem_close_of_not_mem _ _ _ (Net.not_mem_close _ _)
    | false =>
      rw [relay_copy_pending]
      refine ⟨by simp, ?_, rfl, rfl, rfl, by simp⟩
      intro h
      exact absurd h (by simp)

/-- C7 at a concrete input: the listener socket is descriptor 0; the first
connection (descriptor 1) meets a failed dial, the second (descriptors 2 and
3) is relayed to its end, the third (descriptors 4 and 5) is still being
copied.  Only the sockets of the third are left open beside the listener. -/
theorem relay_closes_its_sockets_witness :
    relay ⟨false, false, false⟩ 1 ⟨Globals.init, ⟨[1, 0], 2⟩, false⟩
        = (.returned, none, ⟨Globals.init, ⟨[0], 2⟩, false⟩) ∧
      relay ⟨true, false, true⟩ 1 ⟨Globals.init, ⟨[1, 0], 2⟩, false⟩
        = (.returned, some 2, ⟨Globals.init, ⟨[0], 3⟩, false⟩) ∧
      acceptLoop [.conn ⟨false, false, false⟩, .conn ⟨true, true, true⟩,
          .conn ⟨true, false, false⟩] ⟨Globals.init, ⟨[0], 1⟩, false⟩
        = ⟨Globals.init, ⟨[5, 4, 0], 6⟩, false⟩ :=
  ⟨by decide, by decide,
    ((relay_closes_its_sockets ⟨false, false, false⟩ 1
        ⟨Globals.init, ⟨[0], 1⟩, false⟩).2.2.2.2.2 rfl).2.2.2.1
        [.conn ⟨true, true, true⟩, .conn ⟨true, false, false⟩] |>.trans (by decide)⟩

/-! ## The forwarding engine and the lock -/

theorem allLocked_append (xs ys : List Access) :
    allLocked (xs ++ ys) = (allLocked xs && allLocked ys) := by
  simp [allLocked]

theorem allLocked_append_locked (xs ys : List Access) (h : allLocked xs = true)
    (h2 : allLocked ys = true) : allLocked (xs ++ ys) = true := by
  rw [allLocked_append, h, h2]
  rfl

theorem allLocked_append_unlocked (xs ys : List Access) (h : allLocked xs = false) :
    allLocked (xs ++ ys) = false := by
  rw [allLocked_append, h]
  rfl

theorem addPortMapping_allLocked (slack : Nat → Nat → Nat) (g : Globals) (from_ : Int)
    (to_ : String) (hfree : g.mutex = false) (h : allLocked g.accesses = true) :
    allLocked (addPortMapping slack g from_ to_).2.accesses = true := by
  rw [addPortMapping_unlocked slack g _ _ hfree]
  exact allLocked_append_locked _ _ (allLocked_append_locked _ _ h rfl) rfl

theorem deletePortMapping_allLocked (slack : Nat → Nat → Nat) (g : Globals) (index : Int)
    (hfree : g.mutex = false) (h : allLocked g.accesses = true) :
    allLocked (deletePortMapping slack g index).2.accesses = true := by
  rw [deletePortMapping_unlocked slack g _ hfree]
  have h1 := allLocked_append_locked _ [⟨.read, true⟩] h rfl
  have h2 := allLocked_append_locked _ [⟨.read, true⟩] h1 rfl
  have h3 := allLocked_append_locked _ [⟨.write, true⟩] h2 rfl
  cases g.portMappings.sliceTo index with
  | none => exact h1
  | some a =>
    cases g.portMappings.sliceFrom (wrapInt (index + 1)) with
    | none => exact h2
    | some b => exact h3

theorem listHandler_allLocked (g : Globals) (hfree : g.mutex = false)
    (h : allLocked g.accesses = true) :
    allLocked (listHandler g).2.1.accesses = true := by
  rw [listHandler_unlocked g hfree]
  exact allLocked_append_locked _ _ h rfl

theorem readLast_eq (g : Globals) :
    readLast g =
      (g.portMappings.index (wrapInt ((g.portMappings.len : Int) - 1)),
        ⟨g.portMappings, g.mutex,
          g.accesses ++ [⟨.read, g.mutex⟩] ++ [⟨.read, g.mutex⟩]⟩) :=
  rfl

theorem listenOrRollback_failed (g : Globals) :
    listenOrRollback g false =
      match g.portMappings.sliceTo (wrapInt ((g.portMappings.len : Int) - 1)) with
      | none =>
        (.panicked,
          ⟨g.portMappings, g.mutex,
            g.accesses ++ [⟨.read, g.mutex⟩] ++ [⟨.read, g.mutex⟩]⟩)
      | some s =>
        (.rolledBack,
          ⟨s, g.mutex,
            g.accesses ++ [⟨.read, g.mutex⟩] ++ [⟨.read, g.mutex⟩] ++ [⟨.write, g.mutex⟩]⟩) :=
  rfl

theorem listenOrRollback_accesses (g : Globals) (listenOk : Bool) :
    ∃ ys, (listenOrRollback g listenOk).2.accesses = g.accesses ++ ys := by
  cases listenOk with
  | true => exact ⟨[], (List.append_nil _).symm⟩
  | false =>
    rw [listenOrRollback_failed]
    cases g.portMappings.sliceTo (wrapInt ((g.portMappings.len : Int) - 1)) with
    | none => exact ⟨[⟨.read, g.mutex⟩] ++ [⟨.read, g.mutex⟩], by simp⟩
    | some s =>
      exact ⟨[⟨.read, g.mutex⟩] ++ [⟨.read, g.mutex⟩] ++ [⟨.write, g.mutex⟩], by simp⟩

theorem startPortForwarding_eq (g : Globals) (listenOk : Bool) :
    startPortForwarding g listenOk =
      match g.portMappings.index (wrapInt ((g.portMappings.len : Int) - 1)) with
      | none =>
        (.panicked, none,
          ⟨g.portMappings, g.mutex,
            g.accesses ++ [⟨.read, g.mutex⟩] ++ [⟨.read, g.mutex⟩]⟩)
      | some m =>
        ((listenOrRollback ⟨g.portMappings, g.mutex,
            g.accesses ++ [⟨.read, g.mutex⟩] ++ [⟨.read, g.mutex⟩]⟩ listenOk).1, some m,
          (listenOrRollback ⟨g.portMappings, g.mutex,
            g.accesses ++ [⟨.read, g.mutex⟩] ++ [⟨.read, g.mutex⟩]⟩ listenOk).2) := by
  unfold startPortForwarding
  rw [readLast_eq]
  cases g.portMappings.index (wrapInt ((g.portMappings.len : Int) - 1)) <;> rfl

theorem startPortForwarding_not_allLocked (g : Globals) (listenOk : Bool)
    (hfree : g.mutex = false) :
    allLocked (startPortForwarding g listenOk).2.2.accesses = false := by
  have h1 : allLocked (g.accesses ++ [⟨.read, g.mutex⟩] ++ [⟨.read, g.mutex⟩]) = false := by
    rw [allLocked_append, allLocked_append, hfree]
    simp [allLocked]
  rw [startPortForwarding_eq]
  cases g.portMappings.index (wrapInt ((g.portMappings.len : Int) - 1)) with
  | none => exact h1
  | some m =>
    obtain ⟨ys, hys⟩ := listenOrRollback_accesses ⟨g.portMappings, g.mutex,
      g.accesses ++ [⟨.read, g.mutex⟩] ++ [⟨.read, g.mutex⟩]⟩ listenOk
    show allLocked (listenOrRollback _ listenOk).2.accesses = false
    rw [hys]
    exact allLocked_append_unlocked _ _ h1

/-- C8, the code at a failing input: `startPortForwarding` on a one-entry
table with the lock free and the bind failing reads `portMappings` four times
and assigns it once, each time without holding `mutex`. -/
theorem startPortForwarding_takes_no_lock :
    startPortForwarding ⟨⟨[⟨80, ":81"⟩], []⟩, false, []⟩ false
      = (.rolledBack, some ⟨80, ":81"⟩,
          ⟨⟨[], [⟨80, ":81"⟩]⟩, false,
            [⟨.read, false⟩, ⟨.read, false⟩, ⟨.read, false⟩, ⟨.read, false⟩,
              ⟨.write, false⟩]⟩) ∧
      allLocked (startPortForwarding ⟨⟨[⟨80, ":81"⟩], []⟩, false, []⟩ false).2.2.accesses
        = false := by
  decide

/-! ## Requests interleaved with the goroutines -/

/-- C1, the code at a failing input: a mapping for port 80 is added and its
goroutine reads it; a second mapping for port 81 is added; then the bind of
port 80 fails.  The rollback removes the second mapping, and the first, whose
bind failed, stays in the table. -/
theorem rollback_removes_another_mapping :
    (run noSlack Sys.init
        [.add "80" "a:1", .read 0, .add "81" "b:2", .listen 0 false]).tasks
      = [⟨⟨80, "a:1"⟩, .rolledBack ⟨80, "a:1"⟩ ⟨81, "b:2"⟩⟩, ⟨⟨81, "b:2"⟩, .launched⟩] ∧
      (run noSlack Sys.init
        [.add "80" "a:1", .read 0, .add "81" "b:2", .listen 0 false]).g.table
      = [⟨80, "a:1"⟩] := by
  decide

/-- C9, the code at a failing input: a mapping is added, it is deleted with the
in-range index 0, and then the goroutine of the add runs line 41 on the empty
table: the index expression panics and the process ends. -/
theorem startPortForwarding_panics_on_empty_table :
    (run noSlack Sys.init [.add "80" "a:1", .delete "0"]).g.table = [] ∧
      (run noSlack Sys.init [.add "80" "a:1", .delete "0", .read 0]).tasks
        = [⟨⟨80, "a:1"⟩, .panicked⟩] ∧
      (run noSlack Sys.init [.add "80" "a:1", .delete "0", .read 0]).crashed = true ∧
      (startPortForwarding Globals.init false).1 = .panicked := by
  decide

/-! ## Further properties of the code -/

theorem Slice.index_last {α : Type} (s : Slice α) (l : List α) (x : α)
    (hs : s.elems = l ++ [x]) (hlen : (l.length : Int) + 1 < 2 ^ 63) :
    s.index (wrapInt ((s.len : Int) - 1)) = some x := by
  have hl : s.elems.length = l.length + 1 := by rw [hs]; simp
  have hw : wrapInt ((s.len : Int) - 1) = (l.length : Int) := by
    unfold Slice.len
    rw [hl, wrapInt_of_isInt]
    · push_cast; omega
    · unfold isInt; push_cast; omega
  rw [hw]
  unfold Slice.index Slice.len
  rw [if_pos (by rw [hl]; push_cast; omega), hs]
  simp

theorem Slice.sliceTo_init {α : Type} (s : Slice α) (l : List α) (x : α)
    (hs : s.elems = l ++ [x]) (hlen : (l.length : Int) + 1 < 2 ^ 63) :
    s.sliceTo (wrapInt ((s.len : Int) - 1)) = some ⟨l, x :: s.spare⟩ := by
  have hl : s.elems.length = l.length + 1 := by rw [hs]; simp
  have hw : wrapInt ((s.len : Int) - 1) = ((l.length : Nat) : Int) := by
    unfold Slice.len
    rw [hl, wrapInt_of_isInt]
    · push_cast; omega
    · unfold isInt; push_cast; omega
  rw [hw, Slice.sliceTo_le s l.length (by omega), hs]
  simp

/-- When nothing runs between an add request and the `startPortForwarding` it
launches, the goroutine works on the mapping just appended: if the bind fails
the rollback removes exactly that mapping and the table is what it was before
the request; if the bind succeeds the table keeps the new mapping. -/
theorem rollback_right_after_add (slack : Nat → Nat → Nat) (g : Globals)
    (fromForm toForm : String) (hfree : g.mutex = false)
    (hfrom : (Atoi fromForm).2 = none) (hlen : (g.table.length : Int) + 1 < 2 ^ 63) :
    (startPortForwarding (addHandler slack g fromForm toForm).2.2 false).1 = .rolledBack ∧
      (startPortForwarding (addHandler slack g fromForm toForm).2.2 false).2.1
        = some ⟨(Atoi fromForm).1, destination toForm⟩ ∧
      (startPortForwarding (addHandler slack g fromForm toForm).2.2 false).2.2.table
        = g.table ∧
      (startPortForwarding (addHandler slack g fromForm toForm).2.2 true).1 = .listening ∧
      (startPortForwarding (addHandler slack g fromForm toForm).2.2 true).2.2.table
        = g.table ++ [⟨(Atoi fromForm).1, destination toForm⟩] := by
  rw [addHandler_ok slack g fromForm toForm hfree hfrom]
  have hS := Slice.append_elems slack PortMapping.zero g.portMappings
    [⟨(Atoi fromForm).1, destination toForm⟩]
  have hi := Slice.index_last _ g.table _ hS hlen
  have ht := Slice.sliceTo_init _ g.table _ hS hlen
  simp only [startPortForwarding_eq, hi, listenOrRollback_failed, ht]
  exact ⟨trivial, trivial, rfl, rfl, hS⟩

/-- The sequential case at a concrete input: port 80 cannot be bound. -/
theorem rollback_right_after_add_witness :
    (startPortForwarding (addHandler noSlack Globals.init "80" "a:1").2.2 false).2.2.table
      = [] :=
  (rollback_right_after_add noSlack Globals.init "80" "a:1" rfl rfl (by decide)).2.2.1

/-- The add, delete and listing operations, started with the lock free, touch
`portMappings` only while they hold `mutex`. -/
theorem table_operations_hold_lock (slack : Nat → Nat → Nat) (g : Globals)
    (hfree : g.mutex = false) (h : allLocked g.accesses = true) :
    (∀ (from_ : Int) (to_ : String),
        allLocked (addPortMapping slack g from_ to_).2.accesses = true) ∧
      (∀ index : Int, allLocked (deletePortMapping slack g index).2.accesses = true) ∧
      allLocked (listHandler g).2.1.accesses = true :=
  ⟨fun from_ to_ => addPortMapping_allLocked slack g from_ to_ hfree h,
    fun index => deletePortMapping_allLocked slack g index hfree h,
    listHandler_allLocked g hfree h⟩

/-- The lock discipline of the three operations at a concrete state. -/
theorem table_operations_hold_lock_witness :
    allLocked (addPortMapping noSlack Globals.init 80 ":81").2.accesses = true :=
  (table_operations_hold_lock noSlack Globals.init rfl rfl).1 80 ":81"

/-- From any state with the lock free, `startPortForwarding` accesses
`portMappings` without holding `mutex`, whatever the table and whether or not
the bind succeeds. -/
theorem startPortForwarding_never_locks (g : Globals) (listenOk : Bool)
    (hfree : g.mutex = false) :
    allLocked (startPortForwarding g listenOk).2.2.accesses = false ∧
      (startPortForwarding g listenOk).2.2.mutex = false := by
  refine ⟨startPortForwarding_not_allLocked g listenOk hfree, ?_⟩
  rw [startPortForwarding_eq]
  cases g.portMappings.index (wrapInt ((g.portMappings.len : Int) - 1)) with
  | none => exact hfree
  | some m =>
    cases listenOk with
    | true => exact hfree
    | false =>
      show (listenOrRollback _ false).2.mutex = false
      rw [listenOrRollback_failed]
      cases g.portMappings.sliceTo (wrapInt ((g.portMappings.len : Int) - 1)) with
      | none => exact hfree
      | some s => exact hfree

/-- The missing lock at a concrete state: the empty table. -/
theorem startPortForwarding_never_locks_witness :
    allLocked (startPortForwarding Globals.init true).2.2.accesses = false :=
  (startPortForwarding_never_locks Globals.init true rfl).1

/-- Every call of `addPortMapping`, of the listing and of `deletePortMapping`
with an index in range, started with the lock free, ends with the lock free;
a `deletePortMapping` with an index out of range ends with the lock held. -/
theorem lock_released_unless_delete_panics (slack : Nat → Nat → Nat) (g : Globals)
    (hfree : g.mutex = false) (hlen : (g.table.length : Int) < 2 ^ 63) :
    (∀ (from_ : Int) (to_ : String), (addPortMapping slack g from_ to_).2.mutex = false) ∧
      (listHandler g).2.1.mutex = false ∧
      (∀ i : Nat, i < g.table.length →
        (deletePortMapping slack g (i : Int)).2.mutex = false) ∧
      (∀ index : Int, isInt index → (index < 0 ∨ (g.table.length : Int) ≤ index) →
        (deletePortMapping slack g index).2.mutex = true) := by
  refine ⟨?_, ?_, ?_, ?_⟩
  · intro from_ to_
    rw [addPortMapping_unlocked slack g _ _ hfree]
  · rw [listHandler_unlocked g hfree]
  · intro i hi
    rw [deletePortMapping_inRange slack g i hfree hi hlen]
  · intro index hint hout
    exact (deletePortMapping_outOfRange slack g index hfree hint hout).2.2

/-- The lock after each operation at a concrete state. -/
theorem lock_released_unless_delete_panics_witness :
    (deletePortMapping noSlack ⟨⟨[⟨80, ":1"⟩], []⟩, false, []⟩ 0).2.mutex = false ∧
      (deletePortMapping noSlack ⟨⟨[⟨80, ":1"⟩], []⟩, false, []⟩ 1).2.mutex = true :=
  have h := lock_released_unless_delete_panics noSlack ⟨⟨[⟨80, ":1"⟩], []⟩, false, []⟩ rfl
    (by decide)
  ⟨h.2.2.1 0 (by decide), h.2.2.2 1 (by decide) (by decide)⟩

end PortProxy
